import Mathlib

/-!
Verification development for the uid-keyed object storage abstraction of the
`zephyr_crypto_psa_stm32` repository.  Two backends are embedded:

* `storage_interface` — the Volatile Table Store of
  `src/crypto_wrapper/src/storage_interface.c`: a fixed array of 8 slots,
  each holding a used flag, a 64-bit uid, a size and a 1024-byte buffer.
  The C file's static `storage_table` becomes an explicit state parameter
  of type `List storage_entry_t`; machine integers become `Nat` (no
  addition that can wrap occurs in this backend), and nullable caller
  pointers become `Option` / a null flag.

* `storage_interface_zfs` — the Persistent Log Store of
  `src/crypto_wrapper/src/storage_interface_zfs.c`: a thin layer over the
  black-box ZMS flash log.  The log is modelled as a partial map from uid
  to record bytes; the `uint32_t` additions of that file are taken
  modulo 2^32 exactly where the C code performs them.

PSA status codes are the fallback values defined in both C files.
-/

def PSA_SUCCESS : Int := 0
def PSA_ERROR_INVALID_ARGUMENT : Int := -1
def PSA_ERROR_DOES_NOT_EXIST : Int := -2
def PSA_ERROR_INSUFFICIENT_STORAGE : Int := -3
def PSA_ERROR_IO_ERROR : Int := -4

/-- Storage bounds defined identically in both C backends. -/
def STORAGE_MAX_ENTRIES : Nat := 8

def STORAGE_MAX_ITEM_SIZE : Nat := 1024

/-- Modulus of the C `uint32_t` type. -/
def U32_MOD : Nat := 4294967296

/-- Reduction of a natural number modulo 2^32, the value a C `uint32_t`
expression holds. -/
def u32 (n : Nat) : Nat := n % U32_MOD

/-- First index of a list element satisfying `p`, exactly the linear search
loop pattern `for (i = 0; i < n; i++) if (p(a[i])) return i;` used by both
`find_entry` and `find_free_slot` in the C source. -/
def find_idx {α : Type} (p : α → Bool) : List α → Option Nat
  | [] => none
  | a :: t => if p a then some 0 else (find_idx p t).map (fun k => k + 1)

theorem find_idx_eq_none_iff {α : Type} (p : α → Bool) :
    ∀ (l : List α), find_idx p l = none ↔ ∀ x ∈ l, p x = false := by
  intro l
  induction l with
  | nil => simp [find_idx]
  | cons a t ih =>
    by_cases hp : p a
    · simp [find_idx, hp]
    · have hp' : p a = false := by simpa using hp
      simp [find_idx, hp', ih]

theorem find_idx_eq_some {α : Type} (p : α → Bool) :
    ∀ (l : List α) (i : Nat), find_idx p l = some i →
      i < l.length ∧ (∀ d, p (l.getD i d) = true) ∧
        (∀ j, j < i → ∀ d, p (l.getD j d) = false) := by
  intro l
  induction l with
  | nil => intro i h; simp [find_idx] at h
  | cons a t ih =>
    intro i h
    by_cases hp : p a
    · simp [find_idx, hp] at h
      subst h
      refine ⟨Nat.succ_pos _, fun d => hp, fun j hj d => absurd hj (Nat.not_lt_zero j)⟩
    · simp [find_idx, hp] at h
      obtain ⟨k, hk, hki⟩ := h
      subst hki
      obtain ⟨h1, h2, h3⟩ := ih k hk
      refine ⟨Nat.succ_lt_succ h1, fun d => h2 d, fun j hj d => ?_⟩
      cases j with
      | zero => simpa using hp
      | succ j =>
        have : j < k := Nat.lt_of_succ_lt_succ hj
        simpa using h3 j this d

theorem find_idx_eq_some_of {α : Type} (p : α → Bool) :
    ∀ (l : List α) (i : Nat) (d : α), i < l.length → p (l.getD i d) = true →
      (∀ j, j < i → p (l.getD j d) = false) → find_idx p l = some i := by
  intro l
  induction l with
  | nil => intro i d hi; simp at hi
  | cons a t ih =>
    intro i d hi hpi hprev
    cases i with
    | zero =>
      simp at hpi
      simp [find_idx, hpi]
    | succ i =>
      have ha : p a = false := by simpa using hprev 0 (Nat.succ_pos i)
      have hi' : i < t.length := Nat.lt_of_succ_lt_succ hi
      have hpi' : p (t.getD i d) = true := by simpa using hpi
      have hprev' : ∀ j, j < i → p (t.getD j d) = false := by
        intro j hj
        simpa using hprev (j + 1) (Nat.succ_lt_succ hj)
      simp [find_idx, ha, ih i d hi' hpi' hprev']

theorem getD_set_self {α : Type} :
    ∀ (l : List α) (i : Nat) (e d : α), i < l.length → (l.set i e).getD i d = e := by
  intro l
  induction l with
  | nil => intro i e d hi; simp at hi
  | cons a t ih =>
    intro i e d hi
    cases i with
    | zero => simp
    | succ i => simpa using ih i e d (Nat.lt_of_succ_lt_succ hi)

theorem getD_set_ne {α : Type} :
    ∀ (l : List α) (i j : Nat) (e d : α), i ≠ j → (l.set i e).getD j d = l.getD j d := by
  intro l
  induction l with
  | nil => intro i j e d _; simp
  | cons a t ih =>
    intro i j e d hne
    cases i with
    | zero =>
      cases j with
      | zero => exact absurd rfl hne
      | succ j => simp
    | succ i =>
      cases j with
      | zero => simp
      | succ j =>
        have : i ≠ j := fun h => hne (by rw [h])
        simpa using ih i j e d this

theorem getD_mem {α : Type} :
    ∀ (l : List α) (j : Nat) (d : α), j < l.length → l.getD j d ∈ l := by
  intro l
  induction l with
  | nil => intro j d hj; simp at hj
  | cons a t ih =>
    intro j d hj
    cases j with
    | zero => simp
    | succ j =>
      have h1 := ih j d (Nat.lt_of_succ_lt_succ hj)
      have h2 : (a :: t).getD (j + 1) d = t.getD j d := by
        simp [List.getD]
      rw [h2]
      exact List.mem_cons_of_mem a h1

theorem find_idx_eq_none_of_idx {α : Type} (p : α → Bool) (l : List α) (d : α)
    (h : ∀ j, j < l.length → p (l.getD j d) = false) : find_idx p l = none := by
  rw [find_idx_eq_none_iff]
  intro x hx
  obtain ⟨j, hj, hx⟩ := List.mem_iff_getElem.mp hx
  have hgd : l.getD j d = x := by
    rw [List.getD_eq_getElem l d hj, hx]
  rw [← hgd]
  exact h j hj

namespace storage_interface

/-- One slot of the Volatile Table Store, the C struct `storage_entry_t` of
`storage_interface.c`: an in-use flag, a 64-bit uid, the stored size and a
fixed 1024-byte buffer (modelled as a byte list of length 1024 in every
reachable state). -/
structure storage_entry_t where
  used : Bool
  uid  : Nat
  size : Nat
  data : List Nat
  deriving DecidableEq

/-- Default value handed to `List.getD`; irrelevant at in-bounds indices. -/
def defaultEntry : storage_entry_t :=
  { used := false, uid := 0, size := 0, data := [] }

/-- Value a slot holds after `memset(&storage_table[idx], 0, ...)` in
`storage_remove`. -/
def clearedEntry : storage_entry_t :=
  { used := false, uid := 0, size := 0, data := List.replicate STORAGE_MAX_ITEM_SIZE 0 }

/-- The table after the `storage_init` SYS_INIT hook: every slot free, uid
and size zero, buffer filled with the 0xFF sentinel. -/
def storage_init_state : List storage_entry_t :=
  List.replicate STORAGE_MAX_ENTRIES
    { used := false, uid := 0, size := 0, data := List.replicate STORAGE_MAX_ITEM_SIZE 0xFF }

/-- Linear search for a used slot whose uid matches (C `find_entry`). -/
def find_entry (st : List storage_entry_t) (uid : Nat) : Option Nat :=
  find_idx (fun e => e.used && e.uid == uid) st

/-- Linear search for the first free slot (C `find_free_slot`). -/
def find_free_slot (st : List storage_entry_t) : Option Nat :=
  find_idx (fun e => !e.used) st

/-- C `storage_set`: `p_obj = none` models a NULL pointer; on success the
chosen slot receives the first `obj_length` bytes of the caller buffer
followed by a zeroed tail (the `memcpy` plus tail `memset`). -/
def storage_set (st : List storage_entry_t) (obj_uid : Nat) (obj_length : Nat)
    (p_obj : Option (List Nat)) : Int × List storage_entry_t :=
  match p_obj with
  | none => (PSA_ERROR_INVALID_ARGUMENT, st)
  | some obj =>
    if obj_length > STORAGE_MAX_ITEM_SIZE then (PSA_ERROR_INSUFFICIENT_STORAGE, st)
    else
      let idx? := match find_entry st obj_uid with
                  | some i => some i
                  | none => find_free_slot st
      match idx? with
      | none => (PSA_ERROR_INSUFFICIENT_STORAGE, st)
      | some idx =>
        (PSA_SUCCESS,
         st.set idx
           { used := true, uid := obj_uid, size := obj_length,
             data := obj.take obj_length ++
               List.replicate (STORAGE_MAX_ITEM_SIZE - obj_length) 0 })

/-- C `storage_get`: `p_obj_null` models a NULL output pointer; the second
component is the byte sequence the call copies into the caller buffer. -/
def storage_get (st : List storage_entry_t) (obj_uid : Nat) (obj_offset : Nat)
    (obj_length : Nat) (p_obj_null : Bool) : Int × List Nat :=
  if p_obj_null then (PSA_ERROR_INVALID_ARGUMENT, [])
  else
    match find_entry st obj_uid with
    | none => (PSA_ERROR_DOES_NOT_EXIST, [])
    | some idx =>
      let e := st.getD idx defaultEntry
      let stored := e.size
      if obj_offset > stored then (PSA_ERROR_INVALID_ARGUMENT, [])
      else
        let avail := stored - obj_offset
        let to_copy := if obj_length > avail then avail else obj_length
        (PSA_SUCCESS, (e.data.drop obj_offset).take to_copy)

/-- C `storage_get_info`: looks the uid up first, then rejects a NULL info
pointer or an `obj_info_size` larger than the stored size, and otherwise
copies the first `obj_info_size` bytes of the slot's data region (the code
really copies `data_ptr`, not the size). -/
def storage_get_info (st : List storage_entry_t) (obj_uid : Nat)
    (p_obj_info_null : Bool) (obj_info_size : Nat) : Int × List Nat :=
  match find_entry st obj_uid with
  | none => (PSA_ERROR_DOES_NOT_EXIST, [])
  | some idx =>
    let e := st.getD idx defaultEntry
    if p_obj_info_null || decide (obj_info_size > e.size) then
      (PSA_ERROR_INVALID_ARGUMENT, [])
    else (PSA_SUCCESS, e.data.take obj_info_size)

/-- C `storage_remove`: `obj_size` is accepted and immediately discarded
(`(void)obj_size`); a found slot is cleared with `memset(..., 0, ...)`. -/
def storage_remove (st : List storage_entry_t) (obj_uid : Nat)
    (obj_size : Nat) : Int × List storage_entry_t :=
  match find_entry st obj_uid with
  | none => (PSA_ERROR_DOES_NOT_EXIST, st)
  | some idx => (PSA_SUCCESS, st.set idx clearedEntry)

end storage_interface


namespace storage_interface_zfs

/-- Modelled from the spec: the backing ZMS flash log (`struct zms_fs` plus
the `zms_*` calls) is an external collaborator, "a black-box log-structured
store offering write/read/delete/length-query by numeric key".  Its state
is a partial map from uid to the record's byte sequence. -/
structure zms_fs where
  store : Nat → Option (List Nat)

/-- Modelled from the spec: "keyed read(key, buffer) → bytes-read-or-error".
A missing key yields a negative error code; a present record fills the
caller buffer with at most `len` bytes and reports the number of bytes
read. -/
def zms_read (fs : zms_fs) (id : Nat) (len : Nat) : Int × List Nat :=
  match fs.store id with
  | none => (-2, [])
  | some r => (((min r.length len : Nat) : Int), r.take len)

/-- Outcome the black-box backing log reports for one keyed write: either
full success or a negative error code. -/
inductive WriteOutcome where
  | ok : WriteOutcome
  | err : Int → WriteOutcome

/-- Modelled from the spec: "keyed write(key, bytes) → bytes-written-or-error".
On success the record under `id` becomes the written bytes and the call
reports `len`; on failure the log is unchanged and the reported code is
returned as is. -/
def zms_write (fs : zms_fs) (id : Nat) (data : List Nat) (len : Nat) :
    WriteOutcome → Int × zms_fs
  | WriteOutcome.ok =>
    (((len : Nat) : Int), { store := fun u => if u = id then some (data.take len) else fs.store u })
  | WriteOutcome.err c => (c, fs)

/-- Modelled from the spec: "keyed delete(key) → status".  `d` is the status
the black-box log reports; on a non-negative status the record is gone, on a
negative status the log is unchanged. -/
def zms_delete (fs : zms_fs) (id : Nat) (d : Int) : Int × zms_fs :=
  if d < 0 then (d, fs)
  else (d, { store := fun u => if u = id then none else fs.store u })

/-- Modelled from the spec: `its_obj_info_t` is declared in
`storage_interface.h`, which is not among the provided sources.  The spec
says the get-info metadata holds "at minimum, the stored size", a 32-bit
quantity, so the struct is modelled as one `uint32_t` field and its size is
4 bytes.  Every conclusion drawn below from this constant needs only that it
is positive, which holds for any C struct. -/
def sizeof_its_obj_info_t : Nat := 4

/-- Size of the working buffer `uint8_t buf[128]` in `storage_get`. -/
def GET_BUF_SIZE : Nat := 128

/-- Buffer indices the `memcpy` in `storage_get` reads: the copy starts at
`buf + sizeof(its_obj_info_t) + obj_offset` and covers `obj_length` bytes. -/
def get_copy_indices (obj_offset obj_length : Nat) : List Nat :=
  (List.range obj_length).map (fun k => sizeof_its_obj_info_t + obj_offset + k)

/-- Byte the working buffer holds at index `i`: the bytes `zms_read` filled,
and an unspecified stack value (modelled as 0) elsewhere. -/
def bufAt (filled : List Nat) (i : Nat) : Nat := filled.getD i 0

/-- C `storage_set` of the Persistent Log Store: guards, then one keyed
write whose outcome `w` the black-box log chooses; a negative outcome and a
short write both surface as `IOError`. -/
def storage_set (fs : zms_fs) (obj_uid : Nat) (obj_length : Nat)
    (p_obj : Option (List Nat)) (w : WriteOutcome) : Int × zms_fs :=
  match p_obj with
  | none => (PSA_ERROR_INVALID_ARGUMENT, fs)
  | some obj =>
    if obj_length > STORAGE_MAX_ITEM_SIZE then (PSA_ERROR_INSUFFICIENT_STORAGE, fs)
    else
      let r := zms_write fs obj_uid obj obj_length w
      if r.1 < 0 then (PSA_ERROR_IO_ERROR, r.2)
      else if u32 r.1.toNat < u32 obj_length then (PSA_ERROR_IO_ERROR, r.2)
      else (PSA_SUCCESS, r.2)

/-- C `storage_get` of the Persistent Log Store: the `uint32_t` sum
`obj_offset + obj_length` (reduced mod 2^32 as the hardware does) is checked
against the 128-byte working buffer, the whole record is staged through that
buffer, a short record is an `IOError`, and the copy extracts `obj_length`
bytes starting at `sizeof(its_obj_info_t) + obj_offset`. -/
def storage_get (fs : zms_fs) (obj_uid : Nat) (obj_offset : Nat)
    (obj_length : Nat) (p_obj_null : Bool) : Int × List Nat :=
  if p_obj_null then (PSA_ERROR_INVALID_ARGUMENT, [])
  else if u32 (obj_offset + obj_length) > GET_BUF_SIZE then
    (PSA_ERROR_INVALID_ARGUMENT, [])
  else
    let r := zms_read fs obj_uid GET_BUF_SIZE
    if r.1 < 0 then (PSA_ERROR_IO_ERROR, [])
    else if u32 r.1.toNat < u32 (obj_offset + obj_length) then (PSA_ERROR_IO_ERROR, [])
    else (PSA_SUCCESS, (get_copy_indices obj_offset obj_length).map (bufAt r.2))

/-- C `storage_get_info` of the Persistent Log Store: one keyed read straight
into the caller's info buffer; a read error or a record shorter than
`obj_info_size` is an `IOError`. -/
def storage_get_info (fs : zms_fs) (obj_uid : Nat) (p_obj_info_null : Bool)
    (obj_info_size : Nat) : Int × List Nat :=
  if p_obj_info_null then (PSA_ERROR_INVALID_ARGUMENT, [])
  else
    let r := zms_read fs obj_uid obj_info_size
    if r.1 < 0 then (PSA_ERROR_IO_ERROR, [])
    else if u32 r.1.toNat < u32 obj_info_size then (PSA_ERROR_IO_ERROR, [])
    else (PSA_SUCCESS, r.2)

/-- C `storage_remove` of the Persistent Log Store: `obj_size` is accepted
and immediately discarded; the keyed delete's status `d` decides between
`IOError` and success. -/
def storage_remove (fs : zms_fs) (obj_uid : Nat) (obj_size : Nat)
    (d : Int) : Int × zms_fs :=
  let r := zms_delete fs obj_uid d
  if r.1 < 0 then (PSA_ERROR_IO_ERROR, r.2)
  else (PSA_SUCCESS, r.2)

end storage_interface_zfs

/-- Empty backing log: no uid was ever written. -/
def fsEmpty : storage_interface_zfs.zms_fs := { store := fun _ => none }


/-- Table state after `set(uid 1, length 5, payload A = [1,2,3,4,5])` starting
from the initialized table. -/
def st_after_A : List storage_interface.storage_entry_t :=
  (storage_interface.storage_set storage_interface.storage_init_state 1 5
    (some [1, 2, 3, 4, 5])).2

/-- Table state after the overwrite `set(uid 1, length 3, payload B = [9,8,7])`
on `st_after_A`. -/
def st_after_AB : List storage_interface.storage_entry_t :=
  (storage_interface.storage_set st_after_A 1 3 (some [9, 8, 7])).2

/-- Backing log holding one 128-byte record under uid 1. -/
def fs128 : storage_interface_zfs.zms_fs :=
  { store := fun u => if u = 1 then some (List.replicate 128 7) else none }

/-- Backing log holding the 5-byte record [1,2,3,4,5] under uid 1. -/
def fs5 : storage_interface_zfs.zms_fs :=
  { store := fun u => if u = 1 then some [1, 2, 3, 4, 5] else none }

/-- C1: evaluating the Volatile Table Store at `set(uid 1, 4 bytes [10,20,30,40])`
then `get_info(uid 1, non-null, info_size 4)`: the call succeeds, but the bytes
placed in `out_info` are the stored payload `[10,20,30,40]`, not the stored
size 4 (in neither byte order), although the code's own comment says it
returns "stored size as uint32_t". -/
theorem C1_get_info_returns_payload_not_size :
    (storage_interface.storage_set storage_interface.storage_init_state 1 4
        (some [10, 20, 30, 40])).1 = PSA_SUCCESS ∧
    storage_interface.storage_get_info
        (storage_interface.storage_set storage_interface.storage_init_state 1 4
          (some [10, 20, 30, 40])).2 1 false 4 = (PSA_SUCCESS, [10, 20, 30, 40]) ∧
    [10, 20, 30, 40] ≠ [4, 0, 0, 0] ∧ [10, 20, 30, 40] ≠ [0, 0, 0, 4] := by
  decide

/-- C6: after `set(uid 1, A = [1,2,3,4,5])` then `set(uid 1, B = [9,8,7])`, the
stored size does become `len(B) = 3` and no byte of `A` beyond index 3 is
observable through `get` (a full-width `get` yields exactly `[9,8,7]`), but
`get_info` does not report `len(B)`: it returns the payload bytes `[9,8,7]`
themselves, and a 4-byte info read is rejected with `InvalidArgument`. -/
theorem C6_overwrite_size_and_residue_eval :
    storage_interface.storage_get_info st_after_AB 1 false 3 = (PSA_SUCCESS, [9, 8, 7]) ∧
    storage_interface.storage_get st_after_AB 1 0 STORAGE_MAX_ITEM_SIZE false =
      (PSA_SUCCESS, [9, 8, 7]) ∧
    (storage_interface.storage_get_info st_after_AB 1 false 4).1 =
      PSA_ERROR_INVALID_ARGUMENT ∧
    (st_after_AB.getD 0 storage_interface.defaultEntry).size = 3 := by
  decide

set_option maxRecDepth 40000 in
/-- C9: the `offset + length <= 128` guard of the Persistent Log Store's `get`
does not keep the copy inside the 128-byte working buffer: at
`offset = 0, length = 128` the guard passes and the call succeeds, yet the
copy reads buffer index 131 (`sizeof(its_obj_info_t) + 127`), beyond the
buffer; and at `offset = 2^32 - 1, length = 1` the `uint32` sum wraps to 0,
the guard passes, the call succeeds, and the copy reads an index vastly
beyond the buffer. -/
theorem C9_copy_index_exceeds_working_buffer :
    u32 (0 + 128) ≤ storage_interface_zfs.GET_BUF_SIZE ∧
    (storage_interface_zfs.storage_get fs128 1 0 128 false).1 = PSA_SUCCESS ∧
    131 ∈ storage_interface_zfs.get_copy_indices 0 128 ∧
    ¬(131 < storage_interface_zfs.GET_BUF_SIZE) ∧
    u32 (4294967295 + 1) ≤ storage_interface_zfs.GET_BUF_SIZE ∧
    (storage_interface_zfs.storage_get fs128 1 4294967295 1 false).1 = PSA_SUCCESS ∧
    (storage_interface_zfs.sizeof_its_obj_info_t + 4294967295) ∈
      storage_interface_zfs.get_copy_indices 4294967295 1 ∧
    ¬(storage_interface_zfs.sizeof_its_obj_info_t + 4294967295 <
        storage_interface_zfs.GET_BUF_SIZE) := by
  decide

/-- C10: in both backends `remove` ignores its `obj_size` argument
(`(void)obj_size` in the C source): for every state, uid and any two size
arguments the returned status and resulting state coincide. -/
theorem C10_remove_ignores_obj_size :
    ∀ (st : List storage_interface.storage_entry_t)
      (fs : storage_interface_zfs.zms_fs) (uid s1 s2 : Nat) (d : Int),
      storage_interface.storage_remove st uid s1 =
        storage_interface.storage_remove st uid s2 ∧
      storage_interface_zfs.storage_remove fs uid s1 d =
        storage_interface_zfs.storage_remove fs uid s2 d := by
  intro st fs uid s1 s2 d
  exact ⟨rfl, rfl⟩

/-- Characterization of a successful `find_entry` lookup: the index is in
bounds, the slot there is used with the looked-up uid, and no earlier slot
matches. -/
theorem find_entry_some_spec (st : List storage_interface.storage_entry_t)
    (u i : Nat) (h : storage_interface.find_entry st u = some i) :
    i < st.length ∧
    (st.getD i storage_interface.defaultEntry).used = true ∧
    (st.getD i storage_interface.defaultEntry).uid = u ∧
    (∀ j, j < i → ¬((st.getD j storage_interface.defaultEntry).used = true ∧
        (st.getD j storage_interface.defaultEntry).uid = u)) := by
  obtain ⟨h1, h2, h3⟩ := find_idx_eq_some _ st i h
  have h2' := h2 storage_interface.defaultEntry
  simp only [Bool.and_eq_true, beq_iff_eq] at h2'
  refine ⟨h1, h2'.1, h2'.2, fun j hj hc => ?_⟩
  have hb : ((st.getD j storage_interface.defaultEntry).used &&
      (st.getD j storage_interface.defaultEntry).uid == u) = true := by
    rw [hc.1, hc.2]
    simp
  rw [h3 j hj storage_interface.defaultEntry] at hb
  exact Bool.false_ne_true hb

/-- Characterization of a `find_entry` miss: no used slot carries the uid. -/
theorem find_entry_none_spec (st : List storage_interface.storage_entry_t)
    (u : Nat) (h : storage_interface.find_entry st u = none) :
    ∀ e ∈ st, ¬(e.used = true ∧ e.uid = u) := by
  have h0 : find_idx (fun e => e.used && e.uid == u) st = none := h
  have hall := (find_idx_eq_none_iff (fun e => e.used && e.uid == u) st).mp h0
  intro e he hc
  have hb : (e.used && e.uid == u) = true := by
    rw [hc.1, hc.2]
    simp
  rw [hall e he] at hb
  exact Bool.false_ne_true hb

/-- Unfolding of the Volatile Table Store `get` when the uid lookup hits
slot `i` and the output pointer is non-null. -/
theorem storage_get_found (st : List storage_interface.storage_entry_t)
    (uid off len i : Nat) (hfind : storage_interface.find_entry st uid = some i) :
    storage_interface.storage_get st uid off len false =
      (if off > (st.getD i storage_interface.defaultEntry).size then
        (PSA_ERROR_INVALID_ARGUMENT, ([] : List Nat))
       else
        (PSA_SUCCESS,
          ((st.getD i storage_interface.defaultEntry).data.drop off).take
            (if len > (st.getD i storage_interface.defaultEntry).size - off then
              (st.getD i storage_interface.defaultEntry).size - off
             else len))) := by
  unfold storage_interface.storage_get
  rw [hfind]
  rfl

/-- C4: in the Volatile Table Store, `get` on a stored uid with stored size S
fails with `InvalidArgument` exactly when `offset > S`, and otherwise
succeeds copying exactly `min(length, S - offset)` bytes of the stored
payload starting at `offset` — also when that is fewer bytes than
requested. -/
theorem C4_volatile_get_clamps (st : List storage_interface.storage_entry_t)
    (uid off len i : Nat)
    (hfind : storage_interface.find_entry st uid = some i)
    (hinv : (st.getD i storage_interface.defaultEntry).size ≤
      (st.getD i storage_interface.defaultEntry).data.length) :
    (off > (st.getD i storage_interface.defaultEntry).size →
      storage_interface.storage_get st uid off len false =
        (PSA_ERROR_INVALID_ARGUMENT, [])) ∧
    (off ≤ (st.getD i storage_interface.defaultEntry).size →
      storage_interface.storage_get st uid off len false =
        (PSA_SUCCESS,
          ((st.getD i storage_interface.defaultEntry).data.drop off).take
            (min len ((st.getD i storage_interface.defaultEntry).size - off))) ∧
      (storage_interface.storage_get st uid off len false).2.length =
        min len ((st.getD i storage_interface.defaultEntry).size - off)) := by
  constructor
  · intro hoff
    rw [storage_get_found st uid off len i hfind, if_pos hoff]
  · intro hoff
    have hnoff : ¬(off > (st.getD i storage_interface.defaultEntry).size) :=
      Nat.not_lt.mpr hoff
    have hmin :
        (if len > (st.getD i storage_interface.defaultEntry).size - off then
          (st.getD i storage_interface.defaultEntry).size - off
         else len) =
          min len ((st.getD i storage_interface.defaultEntry).size - off) := by
      rcases Nat.lt_or_ge ((st.getD i storage_interface.defaultEntry).size - off) len
        with hl | hl
      · rw [if_pos hl, Nat.min_eq_right (Nat.le_of_lt hl)]
      · rw [if_neg (Nat.not_lt.mpr hl), Nat.min_eq_left hl]
    rw [storage_get_found st uid off len i hfind, if_neg hnoff, hmin]
    refine ⟨rfl, ?_⟩
    dsimp only
    simp only [List.length_take, List.length_drop]
    omega

/-- Table state of the spec's concrete scenario:
`set(0xA, 10, "0123456789")` on the initialized table. -/
def st_0xA : List storage_interface.storage_entry_t :=
  (storage_interface.storage_set storage_interface.storage_init_state 10 10
    (some [48, 49, 50, 51, 52, 53, 54, 55, 56, 57])).2

set_option maxRecDepth 40000 in
/-- Slot 0 of `st_0xA` holds uid 0xA with size 10, the ASCII digits and a
zeroed tail. -/
theorem st_0xA_entry :
    st_0xA.getD 0 storage_interface.defaultEntry =
      { used := true, uid := 10, size := 10,
        data := [48, 49, 50, 51, 52, 53, 54, 55, 56, 57] ++ List.replicate 1014 0 } := by
  rfl

set_option maxRecDepth 40000 in
/-- Witness for C4 on the spec's concrete scenario: `get(0xA, 3, 4)` copies
"3456" and `get(0xA, 8, 10)` copies only "89", both succeeding; offset 11
(one past the stored size) is rejected. -/
theorem C4_volatile_get_clamps_witness :
    storage_interface.find_entry st_0xA 10 = some 0 ∧
    storage_interface.storage_get st_0xA 10 3 4 false =
      (PSA_SUCCESS, [51, 52, 53, 54]) ∧
    storage_interface.storage_get st_0xA 10 8 10 false = (PSA_SUCCESS, [56, 57]) ∧
    storage_interface.storage_get st_0xA 10 11 1 false =
      (PSA_ERROR_INVALID_ARGUMENT, []) := by
  have hinv : (st_0xA.getD 0 storage_interface.defaultEntry).size ≤
      (st_0xA.getD 0 storage_interface.defaultEntry).data.length := by
    rw [st_0xA_entry]
    simp
  refine ⟨by decide, ?_, ?_, ?_⟩
  · exact ((C4_volatile_get_clamps st_0xA 10 3 4 0 (by decide) hinv).2
      (by rw [st_0xA_entry]; decide)).1.trans (by decide)
  · exact ((C4_volatile_get_clamps st_0xA 10 8 10 0 (by decide) hinv).2
      (by rw [st_0xA_entry]; decide)).1.trans (by decide)
  · exact (C4_volatile_get_clamps st_0xA 10 11 1 0 (by decide) hinv).1
      (by rw [st_0xA_entry]; decide)

/-- Every run of the Volatile Table Store `set` either leaves the table
untouched or reports success. -/
theorem volatile_set_unchanged_or_success
    (st : List storage_interface.storage_entry_t) (uid n : Nat)
    (p : Option (List Nat)) :
    (storage_interface.storage_set st uid n p).2 = st ∨
      (storage_interface.storage_set st uid n p).1 = PSA_SUCCESS := by
  unfold storage_interface.storage_set
  split
  · exact Or.inl rfl
  · split
    · exact Or.inl rfl
    · cases hfe : storage_interface.find_entry st uid with
      | some i =>
        simp only [hfe]
        exact Or.inr trivial
      | none =>
        simp only [hfe]
        cases hff : storage_interface.find_free_slot st with
        | none =>
          simp only [hff]
          exact Or.inl trivial
        | some i =>
          simp only [hff]
          exact Or.inr trivial

/-- Every run of the Persistent Log Store `set` either leaves the backing
log untouched or reports success. -/
theorem zfs_set_unchanged_or_success (fs : storage_interface_zfs.zms_fs)
    (uid n : Nat) (p : Option (List Nat)) (w : storage_interface_zfs.WriteOutcome) :
    (storage_interface_zfs.storage_set fs uid n p w).2 = fs ∨
      (storage_interface_zfs.storage_set fs uid n p w).1 = PSA_SUCCESS := by
  unfold storage_interface_zfs.storage_set
  split
  · exact Or.inl rfl
  · split
    · exact Or.inl rfl
    · cases w with
      | ok =>
        simp only [storage_interface_zfs.zms_write]
        rw [if_neg (by omega : ¬(((n : Nat) : Int) < 0))]
        rw [if_neg (by simp only [u32, U32_MOD]; omega :
          ¬(u32 ((n : Nat) : Int).toNat < u32 n))]
        exact Or.inr rfl
      | err c =>
        simp only [storage_interface_zfs.zms_write]
        split
        · exact Or.inl rfl
        · split
          · exact Or.inl rfl
          · exact Or.inl rfl

/-- C8: in both backends, whenever `set` returns anything other than success
(InvalidArgument, InsufficientStorage or IOError), the store state is
exactly the prior state — every object keeps its previous size and bytes,
so no partial write is observable through later `get`, `get_info` or
`remove`. -/
theorem C8_failed_set_leaves_state_unchanged :
    (∀ (st : List storage_interface.storage_entry_t) (uid n : Nat)
        (p : Option (List Nat)),
      (storage_interface.storage_set st uid n p).1 ≠ PSA_SUCCESS →
        (storage_interface.storage_set st uid n p).2 = st) ∧
    (∀ (fs : storage_interface_zfs.zms_fs) (uid n : Nat) (p : Option (List Nat))
        (w : storage_interface_zfs.WriteOutcome),
      (storage_interface_zfs.storage_set fs uid n p w).1 ≠ PSA_SUCCESS →
        (storage_interface_zfs.storage_set fs uid n p w).2 = fs) := by
  constructor
  · intro st uid n p h
    rcases volatile_set_unchanged_or_success st uid n p with h2 | h1
    · exact h2
    · exact absurd h1 h
  · intro fs uid n p w h
    rcases zfs_set_unchanged_or_success fs uid n p w with h2 | h1
    · exact h2
    · exact absurd h1 h

/-- Witness for C8: an oversized volatile `set` (length 2000 > 1024), a
volatile `set` with a NULL payload, and a Persistent Log Store `set` whose
backing write fails with -5 all report an error and leave their exact
prior state. -/
theorem C8_failed_set_leaves_state_unchanged_witness :
    ((storage_interface.storage_set storage_interface.storage_init_state 1 2000
        (some [1])).1 ≠ PSA_SUCCESS ∧
      (storage_interface.storage_set storage_interface.storage_init_state 1 2000
        (some [1])).2 = storage_interface.storage_init_state) ∧
    ((storage_interface.storage_set st_after_A 1 3 none).1 ≠ PSA_SUCCESS ∧
      (storage_interface.storage_set st_after_A 1 3 none).2 = st_after_A) ∧
    ((storage_interface_zfs.storage_set fs5 2 1 (some [7])
        (storage_interface_zfs.WriteOutcome.err (-5))).1 ≠ PSA_SUCCESS ∧
      (storage_interface_zfs.storage_set fs5 2 1 (some [7])
        (storage_interface_zfs.WriteOutcome.err (-5))).2 = fs5) := by
  refine ⟨⟨by decide, ?_⟩, ⟨by decide, ?_⟩, ⟨by decide, ?_⟩⟩
  · exact C8_failed_set_leaves_state_unchanged.1 storage_interface.storage_init_state 1 2000
      (some [1]) (by decide)
  · exact C8_failed_set_leaves_state_unchanged.1 st_after_A 1 3 none (by decide)
  · exact C8_failed_set_leaves_state_unchanged.2 fs5 2 1 (some [7])
      (storage_interface_zfs.WriteOutcome.err (-5)) (by decide)

/-- Backing log holding the single-byte record [42] under uid 1. -/
def fs1 : storage_interface_zfs.zms_fs :=
  { store := fun u => if u = 1 then some [42] else none }

/-- C3 counterexample: with `offset = 2^32 - 1` and `length = 2` the
mathematical sum exceeds 128 and the stored record (1 byte) is far shorter
than the requested window, yet the Persistent Log Store `get` returns
SUCCESS — the `uint32` sum wraps to 1, so neither the `InvalidArgument`
guard nor the short-record `IOError` fires. -/
theorem C3_sum_wraps_counterexample :
    4294967295 + 2 > 128 ∧
    fs1.store 1 = some [42] ∧
    List.length [42] < 4294967295 + 2 ∧
    (storage_interface_zfs.storage_get fs1 1 4294967295 2 false).1 = PSA_SUCCESS ∧
    PSA_SUCCESS ≠ PSA_ERROR_INVALID_ARGUMENT ∧
    PSA_SUCCESS ≠ PSA_ERROR_IO_ERROR := by
  refine ⟨by decide, by rfl, by decide, by decide, by decide, by decide⟩

/-- Unfolding of the Persistent Log Store `get` with a non-null output
pointer. -/
theorem zfs_get_unfold (fs : storage_interface_zfs.zms_fs) (uid off len : Nat) :
    storage_interface_zfs.storage_get fs uid off len false =
      (if u32 (off + len) > storage_interface_zfs.GET_BUF_SIZE then
        (PSA_ERROR_INVALID_ARGUMENT, ([] : List Nat))
       else if (storage_interface_zfs.zms_read fs uid
          storage_interface_zfs.GET_BUF_SIZE).1 < 0 then (PSA_ERROR_IO_ERROR, [])
       else if u32 (storage_interface_zfs.zms_read fs uid
          storage_interface_zfs.GET_BUF_SIZE).1.toNat < u32 (off + len) then
        (PSA_ERROR_IO_ERROR, [])
       else (PSA_SUCCESS,
        (storage_interface_zfs.get_copy_indices off len).map
          (storage_interface_zfs.bufAt
            (storage_interface_zfs.zms_read fs uid
              storage_interface_zfs.GET_BUF_SIZE).2))) := by
  unfold storage_interface_zfs.storage_get
  rfl

/-- C3 amended: with the sum `offset + length` computed in 32-bit arithmetic
(mod 2^32), exactly as the hardware evaluates it: a wrapped sum above 128
is a hard `InvalidArgument`; a stored record shorter than a guard-accepted
wrapped sum is an `IOError`; and there is no partial-success path — a
successful `get` always hands the caller exactly `length` bytes. -/
theorem C3_amended_window_errors (fs : storage_interface_zfs.zms_fs)
    (uid off len : Nat) :
    (u32 (off + len) > storage_interface_zfs.GET_BUF_SIZE →
      (storage_interface_zfs.storage_get fs uid off len false).1 =
        PSA_ERROR_INVALID_ARGUMENT) ∧
    (u32 (off + len) ≤ storage_interface_zfs.GET_BUF_SIZE →
      ∀ r, fs.store uid = some r → r.length < u32 (off + len) →
        (storage_interface_zfs.storage_get fs uid off len false).1 =
          PSA_ERROR_IO_ERROR) ∧
    ((storage_interface_zfs.storage_get fs uid off len false).1 = PSA_SUCCESS →
      (storage_interface_zfs.storage_get fs uid off len false).2.length = len) := by
  refine ⟨?_, ?_, ?_⟩
  · intro hg
    rw [zfs_get_unfold, if_pos hg]
  · intro hle r hr hshort
    rw [zfs_get_unfold, if_neg (by omega : ¬(u32 (off + len) >
      storage_interface_zfs.GET_BUF_SIZE))]
    simp only [storage_interface_zfs.zms_read, hr]
    split
    · rfl
    · split
      · rfl
      · rename_i hc1 hc2
        exfalso
        simp only [u32, U32_MOD, storage_interface_zfs.GET_BUF_SIZE] at hle hshort hc2
        omega
  · intro hs
    rw [zfs_get_unfold] at hs ⊢
    by_cases hg : u32 (off + len) > storage_interface_zfs.GET_BUF_SIZE
    · rw [if_pos hg] at hs
      exact absurd hs (by decide)
    · rw [if_neg hg] at hs ⊢
      by_cases hc1 : (storage_interface_zfs.zms_read fs uid
          storage_interface_zfs.GET_BUF_SIZE).1 < 0
      · rw [if_pos hc1] at hs
        exact absurd hs (by decide)
      · rw [if_neg hc1] at hs ⊢
        by_cases hc2 : u32 (storage_interface_zfs.zms_read fs uid
            storage_interface_zfs.GET_BUF_SIZE).1.toNat < u32 (off + len)
        · rw [if_pos hc2] at hs
          exact absurd hs (by decide)
        · rw [if_neg hc2]
          simp [storage_interface_zfs.get_copy_indices]

set_option maxRecDepth 40000 in
/-- Witness for the amended C3: a 200-byte window is rejected with
`InvalidArgument`; a guard-accepted 100-byte window over the 1-byte record
of `fs1` is an `IOError`; and the successful 5-byte read from `fs128`
hands back exactly 5 bytes. -/
theorem C3_amended_window_errors_witness :
    u32 (0 + 200) > storage_interface_zfs.GET_BUF_SIZE ∧
    (storage_interface_zfs.storage_get fs1 1 0 200 false).1 =
      PSA_ERROR_INVALID_ARGUMENT ∧
    u32 (0 + 100) ≤ storage_interface_zfs.GET_BUF_SIZE ∧
    fs1.store 1 = some [42] ∧
    List.length [42] < u32 (0 + 100) ∧
    (storage_interface_zfs.storage_get fs1 1 0 100 false).1 = PSA_ERROR_IO_ERROR ∧
    (storage_interface_zfs.storage_get fs128 1 0 5 false).1 = PSA_SUCCESS ∧
    (storage_interface_zfs.storage_get fs128 1 0 5 false).2.length = 5 := by
  refine ⟨by decide, (C3_amended_window_errors fs1 1 0 200).1 (by decide),
    by decide, by rfl, by decide,
    (C3_amended_window_errors fs1 1 0 100).2.1 (by decide) [42] (by rfl) (by decide),
    by decide,
    (C3_amended_window_errors fs128 1 0 5).2.2 (by decide)⟩

/-- Used slot holding uid `k` with size 0 and a zeroed buffer. -/
def entryU (k : Nat) : storage_interface.storage_entry_t :=
  { used := true, uid := k, size := 0, data := List.replicate STORAGE_MAX_ITEM_SIZE 0 }

/-- Full table: all 8 slots hold the distinct uids 1..8. -/
def st8 : List storage_interface.storage_entry_t :=
  [entryU 1, entryU 2, entryU 3, entryU 4, entryU 5, entryU 6, entryU 7, entryU 8]

/-- Unfolding of the Volatile Table Store `get` when the uid lookup misses. -/
theorem storage_get_missing (st : List storage_interface.storage_entry_t)
    (uid off len : Nat) (hfe : storage_interface.find_entry st uid = none) :
    storage_interface.storage_get st uid off len false =
      (PSA_ERROR_DOES_NOT_EXIST, []) := by
  unfold storage_interface.storage_get
  rw [hfe]
  rfl

/-- Unfolding of the Volatile Table Store `get_info` when the uid lookup
misses. -/
theorem storage_get_info_missing (st : List storage_interface.storage_entry_t)
    (uid : Nat) (pn : Bool) (isz : Nat)
    (hfe : storage_interface.find_entry st uid = none) :
    storage_interface.storage_get_info st uid pn isz =
      (PSA_ERROR_DOES_NOT_EXIST, []) := by
  unfold storage_interface.storage_get_info
  rw [hfe]

/-- Unfolding of the Volatile Table Store `remove` when the uid lookup
misses. -/
theorem storage_remove_missing (st : List storage_interface.storage_entry_t)
    (uid osz : Nat) (hfe : storage_interface.find_entry st uid = none) :
    storage_interface.storage_remove st uid osz = (PSA_ERROR_DOES_NOT_EXIST, st) := by
  unfold storage_interface.storage_remove
  rw [hfe]

/-- Unfolding of the Volatile Table Store `remove` when the uid lookup hits
slot `i`: the slot is zero-cleared. -/
theorem storage_remove_found (st : List storage_interface.storage_entry_t)
    (uid osz i : Nat) (hfind : storage_interface.find_entry st uid = some i) :
    storage_interface.storage_remove st uid osz =
      (PSA_SUCCESS, st.set i storage_interface.clearedEntry) := by
  unfold storage_interface.storage_remove
  rw [hfind]

/-- Unfolding of the Persistent Log Store `remove`: the status only depends
on the sign of the backing delete's status `d`. -/
theorem zfs_remove_unfold (fs : storage_interface_zfs.zms_fs) (uid osz : Nat)
    (d : Int) :
    storage_interface_zfs.storage_remove fs uid osz d =
      (if d < 0 then (PSA_ERROR_IO_ERROR, fs)
       else (PSA_SUCCESS,
        { store := fun u => if u = uid then none else fs.store u })) := by
  by_cases hd : d < 0
  · simp [storage_interface_zfs.storage_remove, storage_interface_zfs.zms_delete, hd]
  · simp [storage_interface_zfs.storage_remove, storage_interface_zfs.zms_delete, hd]

/-- After clearing the unique slot holding `uid`, the lookup for `uid`
misses. -/
theorem find_entry_after_clear (st : List storage_interface.storage_entry_t)
    (uid i : Nat) (hfind : storage_interface.find_entry st uid = some i)
    (huniq : ∀ j, j < st.length →
      (st.getD j storage_interface.defaultEntry).used = true →
      (st.getD j storage_interface.defaultEntry).uid = uid → j = i) :
    storage_interface.find_entry (st.set i storage_interface.clearedEntry) uid = none := by
  have hi : i < st.length := (find_entry_some_spec st uid i hfind).1
  apply find_idx_eq_none_of_idx _ _ storage_interface.defaultEntry
  intro j hj
  rw [List.length_set] at hj
  by_cases hij : i = j
  · subst hij
    rw [getD_set_self st i storage_interface.clearedEntry
      storage_interface.defaultEntry hi]
    simp [storage_interface.clearedEntry]
  · rw [getD_set_ne st i j storage_interface.clearedEntry
      storage_interface.defaultEntry hij]
    cases hcu : (st.getD j storage_interface.defaultEntry).used with
    | false => simp [hcu]
    | true =>
      have hne : (st.getD j storage_interface.defaultEntry).uid ≠ uid := by
        intro he
        exact hij (huniq j hj hcu he).symm
      simp only [hcu, Bool.true_and]
      exact beq_eq_false_iff_ne.mpr hne

/-- C2 counterexample: in the Persistent Log Store a never-written uid does
not make `get` and `get_info` fail with `DoesNotExist` — both fail with
`IOError`, because that backend translates every backing-log read failure
to `IOError` and never emits `DoesNotExist`. -/
theorem C2_zfs_missing_uid_counterexample :
    fsEmpty.store 5 = none ∧
    (storage_interface_zfs.storage_get fsEmpty 5 0 1 false).1 = PSA_ERROR_IO_ERROR ∧
    (storage_interface_zfs.storage_get_info fsEmpty 5 false 1).1 = PSA_ERROR_IO_ERROR ∧
    PSA_ERROR_IO_ERROR ≠ PSA_ERROR_DOES_NOT_EXIST := by
  refine ⟨rfl, by decide, by decide, by decide⟩

/-- C2 amended: in the Volatile Table Store a uid without an entry makes
`get` (non-null out), `get_info` and `remove` all fail with `DoesNotExist`,
and on a stored uid occupying a unique slot, `remove` twice in a row yields
success then `DoesNotExist` — never success twice.  In the Persistent Log
Store a uid without a record surfaces as `IOError` on `get` (within the
guard-accepted window) and `get_info`, and `remove` never returns
`DoesNotExist` for any backing delete status. -/
theorem C2_amended_missing_and_double_remove
    (st : List storage_interface.storage_entry_t)
    (fs : storage_interface_zfs.zms_fs) (uid off len isz osz : Nat) (d : Int) :
    (storage_interface.find_entry st uid = none →
      (storage_interface.storage_get st uid off len false).1 =
        PSA_ERROR_DOES_NOT_EXIST ∧
      (storage_interface.storage_get_info st uid false isz).1 =
        PSA_ERROR_DOES_NOT_EXIST ∧
      (storage_interface.storage_remove st uid osz).1 =
        PSA_ERROR_DOES_NOT_EXIST) ∧
    (∀ i, storage_interface.find_entry st uid = some i →
      (∀ j, j < st.length →
        (st.getD j storage_interface.defaultEntry).used = true →
        (st.getD j storage_interface.defaultEntry).uid = uid → j = i) →
      (storage_interface.storage_remove st uid osz).1 = PSA_SUCCESS ∧
      (storage_interface.storage_remove
        (storage_interface.storage_remove st uid osz).2 uid osz).1 =
          PSA_ERROR_DOES_NOT_EXIST) ∧
    (fs.store uid = none →
      (u32 (off + len) ≤ storage_interface_zfs.GET_BUF_SIZE →
        (storage_interface_zfs.storage_get fs uid off len false).1 =
          PSA_ERROR_IO_ERROR) ∧
      (storage_interface_zfs.storage_get_info fs uid false isz).1 =
        PSA_ERROR_IO_ERROR) ∧
    (storage_interface_zfs.storage_remove fs uid osz d).1 ≠
      PSA_ERROR_DOES_NOT_EXIST := by
  refine ⟨?_, ?_, ?_, ?_⟩
  · intro hfe
    rw [storage_get_missing st uid off len hfe,
      storage_get_info_missing st uid false isz hfe,
      storage_remove_missing st uid osz hfe]
    exact ⟨rfl, rfl, rfl⟩
  · intro i hfind huniq
    rw [storage_remove_found st uid osz i hfind]
    refine ⟨rfl, ?_⟩
    rw [storage_remove_missing _ uid osz
      (find_entry_after_clear st uid i hfind huniq)]
  · intro hnone
    constructor
    · intro hle
      rw [zfs_get_unfold, if_neg (by omega :
        ¬(u32 (off + len) > storage_interface_zfs.GET_BUF_SIZE))]
      simp [storage_interface_zfs.zms_read, hnone]
    · simp [storage_interface_zfs.storage_get_info,
        storage_interface_zfs.zms_read, hnone]
  · rw [zfs_remove_unfold]
    by_cases hd : d < 0
    · rw [if_pos hd]
      exact (by decide : PSA_ERROR_IO_ERROR ≠ PSA_ERROR_DOES_NOT_EXIST)
    · rw [if_neg hd]
      exact (by decide : PSA_SUCCESS ≠ PSA_ERROR_DOES_NOT_EXIST)

/-- Witness for the amended C2: uid 9 was never stored in `st8` (all three
volatile operations report `DoesNotExist`); uid 3 occupies exactly slot 2 of
`st8` and removing it twice yields success then `DoesNotExist`; the empty
backing log makes the Persistent Log Store report `IOError` on `get` and
`get_info` and success (never `DoesNotExist`) on `remove` with delete
status 0. -/
theorem C2_amended_missing_and_double_remove_witness :
    ((storage_interface.storage_get st8 9 0 1 false).1 = PSA_ERROR_DOES_NOT_EXIST ∧
      (storage_interface.storage_get_info st8 9 false 1).1 = PSA_ERROR_DOES_NOT_EXIST ∧
      (storage_interface.storage_remove st8 9 0).1 = PSA_ERROR_DOES_NOT_EXIST) ∧
    ((storage_interface.storage_remove st8 3 0).1 = PSA_SUCCESS ∧
      (storage_interface.storage_remove
        (storage_interface.storage_remove st8 3 0).2 3 0).1 =
          PSA_ERROR_DOES_NOT_EXIST) ∧
    ((storage_interface_zfs.storage_get fsEmpty 9 0 1 false).1 = PSA_ERROR_IO_ERROR ∧
      (storage_interface_zfs.storage_get_info fsEmpty 9 false 1).1 =
        PSA_ERROR_IO_ERROR) ∧
    (storage_interface_zfs.storage_remove fsEmpty 9 0 0).1 ≠
      PSA_ERROR_DOES_NOT_EXIST := by
  refine ⟨(C2_amended_missing_and_double_remove st8 fsEmpty 9 0 1 1 0 0).1 (by decide),
    (C2_amended_missing_and_double_remove st8 fsEmpty 3 0 1 1 0 0).2.1 2
      (by decide) (by decide),
    ⟨((C2_amended_missing_and_double_remove st8 fsEmpty 9 0 1 1 0 0).2.2.1
        (by rfl)).1 (by decide),
      ((C2_amended_missing_and_double_remove st8 fsEmpty 9 0 1 1 0 0).2.2.1
        (by rfl)).2⟩,
    (C2_amended_missing_and_double_remove st8 fsEmpty 9 0 1 1 0 0).2.2.2⟩

/-- Slot content written by a successful `storage_set`: the first `n` caller
bytes followed by the zeroed tail. -/
def newEntry (uid n : Nat) (obj : List Nat) : storage_interface.storage_entry_t :=
  { used := true, uid := uid, size := n,
    data := obj.take n ++ List.replicate (STORAGE_MAX_ITEM_SIZE - n) 0 }

/-- A search predicate that requires a used slot is false on any
not-matching slot. -/
theorem pe_false_of_not (x : storage_interface.storage_entry_t) (u : Nat)
    (h : ¬(x.used = true ∧ x.uid = u)) : (x.used && x.uid == u) = false := by
  cases hcu : x.used with
  | false => simp
  | true =>
    have hne : x.uid ≠ u := fun he => h ⟨hcu, he⟩
    simp only [Bool.true_and]
    exact beq_eq_false_iff_ne.mpr hne

/-- In a table whose slots are all used, `find_free_slot` fails. -/
theorem find_free_slot_none (st : List storage_interface.storage_entry_t)
    (hall : ∀ e ∈ st, e.used = true) :
    storage_interface.find_free_slot st = none := by
  rw [storage_interface.find_free_slot, find_idx_eq_none_iff]
  intro x hx
  simp [hall x hx]

/-- Clearing slot `i` of an all-used table makes `i` the first free slot. -/
theorem find_free_slot_after_clear (st : List storage_interface.storage_entry_t)
    (i : Nat) (hall : ∀ e ∈ st, e.used = true) (hi : i < st.length) :
    storage_interface.find_free_slot (st.set i storage_interface.clearedEntry) =
      some i := by
  rw [storage_interface.find_free_slot]
  apply find_idx_eq_some_of _ _ i storage_interface.defaultEntry
  · rw [List.length_set]
    exact hi
  · rw [getD_set_self st i storage_interface.clearedEntry
      storage_interface.defaultEntry hi]
    simp [storage_interface.clearedEntry]
  · intro j hj
    have hij : i ≠ j := Nat.ne_of_gt hj
    rw [getD_set_ne st i j storage_interface.clearedEntry
      storage_interface.defaultEntry hij]
    have hjlt : j < st.length := Nat.lt_trans hj hi
    have hu := hall _ (getD_mem st j storage_interface.defaultEntry hjlt)
    rw [hu]
    rfl

/-- Writing a slot that does not match `u` into a table without `u` keeps
the table without `u`. -/
theorem find_entry_set_none (st : List storage_interface.storage_entry_t)
    (u i : Nat) (e : storage_interface.storage_entry_t)
    (hfe : storage_interface.find_entry st u = none)
    (he : ¬(e.used = true ∧ e.uid = u)) :
    storage_interface.find_entry (st.set i e) u = none := by
  rw [storage_interface.find_entry, find_idx_eq_none_iff]
  intro x hx
  rcases List.mem_or_eq_of_mem_set hx with hx | hx
  · exact pe_false_of_not x u (find_entry_none_spec st u hfe x hx)
  · subst hx
    exact pe_false_of_not x u he

/-- Overwriting the slot `find_entry` already reports with a matching entry
keeps `find_entry` reporting that slot. -/
theorem find_entry_set_match (st : List storage_interface.storage_entry_t)
    (u i : Nat) (e : storage_interface.storage_entry_t)
    (hfind : storage_interface.find_entry st u = some i)
    (heu : e.used = true) (hei : e.uid = u) :
    storage_interface.find_entry (st.set i e) u = some i := by
  obtain ⟨hi, _, _, hprev⟩ := find_entry_some_spec st u i hfind
  rw [storage_interface.find_entry]
  apply find_idx_eq_some_of _ _ i storage_interface.defaultEntry
  · rw [List.length_set]
    exact hi
  · rw [getD_set_self st i e storage_interface.defaultEntry hi]
    simp [heu, hei]
  · intro j hj
    rw [getD_set_ne st i j e storage_interface.defaultEntry (Nat.ne_of_gt hj)]
    exact pe_false_of_not _ u (hprev j hj)

/-- Writing a matching entry into free slot `i` of a table without `u`
makes `find_entry` report slot `i`. -/
theorem find_entry_set_match_of_none (st : List storage_interface.storage_entry_t)
    (u i : Nat) (e : storage_interface.storage_entry_t)
    (hfe : storage_interface.find_entry st u = none) (hi : i < st.length)
    (heu : e.used = true) (hei : e.uid = u) :
    storage_interface.find_entry (st.set i e) u = some i := by
  rw [storage_interface.find_entry]
  apply find_idx_eq_some_of _ _ i storage_interface.defaultEntry
  · rw [List.length_set]
    exact hi
  · rw [getD_set_self st i e storage_interface.defaultEntry hi]
    simp [heu, hei]
  · intro j hj
    rw [getD_set_ne st i j e storage_interface.defaultEntry (Nat.ne_of_gt hj)]
    have hjlt : j < st.length := Nat.lt_trans hj hi
    exact pe_false_of_not _ u
      (find_entry_none_spec st u hfe _ (getD_mem st j storage_interface.defaultEntry hjlt))

/-- Unfolding of a `storage_set` that finds neither the uid nor a free
slot. -/
theorem storage_set_no_room (st : List storage_interface.storage_entry_t)
    (uid n : Nat) (obj : List Nat)
    (hfe : storage_interface.find_entry st uid = none)
    (hff : storage_interface.find_free_slot st = none)
    (hn : n ≤ STORAGE_MAX_ITEM_SIZE) :
    storage_interface.storage_set st uid n (some obj) =
      (PSA_ERROR_INSUFFICIENT_STORAGE, st) := by
  simp only [storage_interface.storage_set]
  rw [if_neg (Nat.not_lt.mpr hn), hfe, hff]

/-- Unfolding of a `storage_set` that updates the slot `find_entry`
reports. -/
theorem storage_set_found (st : List storage_interface.storage_entry_t)
    (uid n i : Nat) (obj : List Nat)
    (hfind : storage_interface.find_entry st uid = some i)
    (hn : n ≤ STORAGE_MAX_ITEM_SIZE) :
    storage_interface.storage_set st uid n (some obj) =
      (PSA_SUCCESS, st.set i (newEntry uid n obj)) := by
  simp only [storage_interface.storage_set]
  rw [if_neg (Nat.not_lt.mpr hn), hfind]
  rfl

/-- Unfolding of a `storage_set` that allocates the first free slot. -/
theorem storage_set_free (st : List storage_interface.storage_entry_t)
    (uid n i : Nat) (obj : List Nat)
    (hfe : storage_interface.find_entry st uid = none)
    (hff : storage_interface.find_free_slot st = some i)
    (hn : n ≤ STORAGE_MAX_ITEM_SIZE) :
    storage_interface.storage_set st uid n (some obj) =
      (PSA_SUCCESS, st.set i (newEntry uid n obj)) := by
  simp only [storage_interface.storage_set]
  rw [if_neg (Nat.not_lt.mpr hn), hfe, hff]
  rfl

/-- C7: once every slot of the table is used — in particular once all 8
slots hold 8 distinct uids — a `set` for a fresh uid fails with
`InsufficientStorage` leaving the table exactly as it was (no displacement),
while a `set` for an already-stored uid still succeeds; and after removing
one stored uid, exactly one additional fresh uid can be stored before
`InsufficientStorage` recurs. -/
theorem C7_capacity (st : List storage_interface.storage_entry_t)
    (u uA uB n osz : Nat) (obj : List Nat)
    (hlen : st.length = STORAGE_MAX_ENTRIES)
    (hall : ∀ e ∈ st, e.used = true)
    (hn : n ≤ STORAGE_MAX_ITEM_SIZE) :
    (storage_interface.find_entry st uA = none →
      storage_interface.storage_set st uA n (some obj) =
        (PSA_ERROR_INSUFFICIENT_STORAGE, st)) ∧
    (∀ i, storage_interface.find_entry st u = some i →
      (storage_interface.storage_set st u n (some obj)).1 = PSA_SUCCESS) ∧
    (∀ i, storage_interface.find_entry st u = some i →
      storage_interface.find_entry st uA = none →
      storage_interface.find_entry st uB = none → uB ≠ uA →
      (storage_interface.storage_set
        (storage_interface.storage_remove st u osz).2 uA n (some obj)).1 =
          PSA_SUCCESS ∧
      (storage_interface.storage_set
        (storage_interface.storage_set
          (storage_interface.storage_remove st u osz).2 uA n (some obj)).2
        uB n (some obj)).1 = PSA_ERROR_INSUFFICIENT_STORAGE) := by
  refine ⟨?_, ?_, ?_⟩
  · intro hfeA
    exact storage_set_no_room st uA n obj hfeA (find_free_slot_none st hall) hn
  · intro i hfind
    rw [storage_set_found st u n i obj hfind hn]
  · intro i hfind hfeA hfeB hBA
    have hi : i < st.length := (find_entry_some_spec st u i hfind).1
    have hrm : (storage_interface.storage_remove st u osz).2 =
        st.set i storage_interface.clearedEntry := by
      rw [storage_remove_found st u osz i hfind]
    have hfeA1 : storage_interface.find_entry
        (st.set i storage_interface.clearedEntry) uA = none := by
      apply find_entry_set_none st uA i storage_interface.clearedEntry hfeA
      simp [storage_interface.clearedEntry]
    have hffA1 : storage_interface.find_free_slot
        (st.set i storage_interface.clearedEntry) = some i :=
      find_free_slot_after_clear st i hall hi
    have hsetA : storage_interface.storage_set
        (st.set i storage_interface.clearedEntry) uA n (some obj) =
        (PSA_SUCCESS, (st.set i storage_interface.clearedEntry).set i
          (newEntry uA n obj)) :=
      storage_set_free _ uA n i obj hfeA1 hffA1 hn
    have hst2 : ((st.set i storage_interface.clearedEntry).set i
        (newEntry uA n obj)) = st.set i (newEntry uA n obj) := by
      rw [List.set_set]
    constructor
    · rw [hrm, hsetA]
    · rw [hrm, hsetA]
      dsimp only
      rw [hst2]
      have hallA : ∀ e ∈ st.set i (newEntry uA n obj), e.used = true := by
        intro e he
        rcases List.mem_or_eq_of_mem_set he with he | he
        · exact hall e he
        · rw [he]
          rfl
      have hfeB2 : storage_interface.find_entry
          (st.set i (newEntry uA n obj)) uB = none := by
        apply find_entry_set_none st uB i (newEntry uA n obj) hfeB
        intro hc
        exact hBA hc.2.symm
      rw [storage_set_no_room _ uB n obj hfeB2
        (find_free_slot_none _ hallA) hn]

/-- Witness for C7 on the concrete full table `st8` (8 used slots with uids
1..8): a 9th uid 100 is refused with `InsufficientStorage` and the table is
untouched; overwriting stored uid 3 still succeeds; after removing uid 3,
uid 100 fits but a further fresh uid 101 is refused again. -/
theorem C7_capacity_witness :
    storage_interface.storage_set st8 100 1 (some [7]) =
      (PSA_ERROR_INSUFFICIENT_STORAGE, st8) ∧
    (storage_interface.storage_set st8 3 1 (some [7])).1 = PSA_SUCCESS ∧
    (storage_interface.storage_set
      (storage_interface.storage_remove st8 3 0).2 100 1 (some [7])).1 =
        PSA_SUCCESS ∧
    (storage_interface.storage_set
      (storage_interface.storage_set
        (storage_interface.storage_remove st8 3 0).2 100 1 (some [7])).2
      101 1 (some [7])).1 = PSA_ERROR_INSUFFICIENT_STORAGE := by
  have h := C7_capacity st8 3 100 101 1 0 [7] (by decide) (by decide) (by decide)
  refine ⟨h.1 (by decide), h.2.1 2 (by decide), ?_, ?_⟩
  · exact (h.2.2 2 (by decide) (by decide) (by decide) (by decide)).1
  · exact (h.2.2 2 (by decide) (by decide) (by decide) (by decide)).2

/-- Round-trip law of the Volatile Table Store: a successful
`set(uid, len(obj), obj)` followed by `get(uid, 0, len(obj))` succeeds and
returns exactly `obj`. -/
theorem volatile_roundtrip (st : List storage_interface.storage_entry_t)
    (uid n : Nat) (obj : List Nat) (hlen : obj.length = n)
    (hn : n ≤ STORAGE_MAX_ITEM_SIZE)
    (hs : (storage_interface.storage_set st uid n (some obj)).1 = PSA_SUCCESS) :
    storage_interface.storage_get
      (storage_interface.storage_set st uid n (some obj)).2 uid 0 n false =
      (PSA_SUCCESS, obj) := by
  have main : ∀ i, (storage_interface.storage_set st uid n (some obj)).2 =
      st.set i (newEntry uid n obj) →
      storage_interface.find_entry (st.set i (newEntry uid n obj)) uid = some i →
      i < st.length →
      storage_interface.storage_get
        (storage_interface.storage_set st uid n (some obj)).2 uid 0 n false =
        (PSA_SUCCESS, obj) := by
    intro i hst2 hfind2 hi
    rw [hst2]
    have hge := storage_get_found (st.set i (newEntry uid n obj)) uid 0 n i hfind2
    have he : (st.set i (newEntry uid n obj)).getD i storage_interface.defaultEntry =
        newEntry uid n obj :=
      getD_set_self st i (newEntry uid n obj) storage_interface.defaultEntry hi
    rw [he] at hge
    rw [hge, if_neg (Nat.not_lt_zero (newEntry uid n obj).size)]
    have hsz : (newEntry uid n obj).size = n := rfl
    have hdt : (newEntry uid n obj).data =
        obj.take n ++ List.replicate (STORAGE_MAX_ITEM_SIZE - n) 0 := rfl
    rw [hsz, hdt, Nat.sub_zero, if_neg (lt_irrefl n), List.drop_zero]
    subst hlen
    rw [List.take_length, List.take_left]
  rcases hfe : storage_interface.find_entry st uid with _ | i
  · rcases hff : storage_interface.find_free_slot st with _ | i
    · rw [storage_set_no_room st uid n obj hfe hff hn] at hs
      exact absurd hs
        ((by decide : ¬(PSA_ERROR_INSUFFICIENT_STORAGE = PSA_SUCCESS)) :
          ¬((PSA_ERROR_INSUFFICIENT_STORAGE, st).1 = PSA_SUCCESS))
    · have hi : i < st.length := (find_idx_eq_some _ st i hff).1
      have hset := storage_set_free st uid n i obj hfe hff hn
      exact main i (by rw [hset]) (find_entry_set_match_of_none st uid i
        (newEntry uid n obj) hfe hi rfl rfl) hi
  · have hi : i < st.length := (find_entry_some_spec st uid i hfe).1
    have hset := storage_set_found st uid n i obj hfe hn
    exact main i (by rw [hset]) (find_entry_set_match st uid i
      (newEntry uid n obj) hfe rfl rfl) hi

set_option maxRecDepth 40000 in
/-- C5: the round-trip law holds in the Volatile Table Store (shown here on
the spec's own scenario, uid 0xA with the ten ASCII digits; the general law
is `volatile_roundtrip`, applied in this proof), but fails in the Persistent
Log Store: after a successful `set(1, 5, [1,2,3,4,5])` (backing write
succeeds), `get(1, 0, 5)` succeeds yet returns `[5,0,0,0,0]` — the record
bytes starting at offset `sizeof(its_obj_info_t)` = 4, not the stored
payload, because `set` writes the payload at record offset 0 while `get`
extracts past a metadata header `set` never wrote. -/
theorem C5_roundtrip_eval :
    storage_interface.storage_get st_0xA 10 0 10 false =
      (PSA_SUCCESS, [48, 49, 50, 51, 52, 53, 54, 55, 56, 57]) ∧
    (storage_interface_zfs.storage_set fsEmpty 1 5 (some [1, 2, 3, 4, 5])
      storage_interface_zfs.WriteOutcome.ok).1 = PSA_SUCCESS ∧
    storage_interface_zfs.storage_get
      (storage_interface_zfs.storage_set fsEmpty 1 5 (some [1, 2, 3, 4, 5])
        storage_interface_zfs.WriteOutcome.ok).2 1 0 5 false =
      (PSA_SUCCESS, [5, 0, 0, 0, 0]) ∧
    [5, 0, 0, 0, 0] ≠ [1, 2, 3, 4, 5] := by
  refine ⟨volatile_roundtrip storage_interface.storage_init_state 10 10
      [48, 49, 50, 51, 52, 53, 54, 55, 56, 57] rfl (by decide) (by decide),
    by decide, by decide, by decide⟩
